import Mathlib

/-!
Shallow embedding of `src/main.rs` of the dclone-tracker repository.

Machine integers (`i32`) are modelled as `Int`; the only place where the
`i32` range matters is `str::parse::<i32>`, which is modelled with an
explicit range check.  External collaborators (the libnotify sink) are
modelled as function parameters returning `Except String Unit`; `anyhow`
errors are modelled as their `String` messages.
-/

namespace DCloneTracker

/-- Urgency tiers of `libnotify::Urgency` as used by `notify`. -/
inductive Urgency where
  | Low
  | Normal
  | Critical
deriving DecidableEq, Repr

/-- A desktop notification as constructed in `notify`:
`libnotify::Notification::new(&title, Some(msg.as_str()), Some("annihilus"))`
plus `set_urgency`. -/
structure Notification where
  title : String
  body : String
  app : String
  urgency : Urgency
deriving DecidableEq, Repr

/-- The external notification sink: given the constructed notification,
`notification.show()` either succeeds or fails. -/
abbrev Sink := Notification → Except String Unit

/-- The `match new { ... }` severity classification at the top of `notify`
(src/main.rs lines 93-99).  Out-of-range values produce the
`anyhow!("Unknown progress value: {}", n)` error. -/
def classify (new : Int) : Except String (String × Urgency) :=
  if new = 1 then Except.ok ("DClone is far away", Urgency.Low)
  else if new = 2 ∨ new = 3 ∨ new = 4 then Except.ok ("DClone is nearing...", Urgency.Normal)
  else if new = 5 then Except.ok ("DClone is about to walk!", Urgency.Critical)
  else if new = 6 then Except.ok ("DClone is walking!", Urgency.Critical)
  else Except.error ("Unknown progress value: " ++ toString new)

/-- The notification value built in `notify` (src/main.rs lines 101-109):
the body text depends on whether `old == 0`, the title is
`"{region}: {title}"`, and the application tag is `"annihilus"`. -/
def mkNotification (region : String) (old new : Int) (title : String) (urgency : Urgency) :
    Notification :=
  { title := region ++ ": " ++ title
    body :=
      if old = 0 then "New status: " ++ toString new
      else "Status changed from " ++ toString old ++ " to " ++ toString new
    app := "annihilus"
    urgency := urgency }

/-- `notify(region, old, new)` (src/main.rs lines 92-113).  The source
returns `Result<()>`; here the successfully shown notification is returned
in the `ok` case so that emitted notifications are observable. -/
def notify (sink : Sink) (region : String) (old new : Int) : Except String Notification :=
  match classify new with
  | Except.error e => Except.error e
  | Except.ok tu =>
    match sink (mkNotification region old new tu.1 tu.2) with
    | Except.error e => Except.error e
    | Except.ok _ => Except.ok (mkNotification region old new tu.1 tu.2)

/-- The region status store (src/main.rs lines 56-61), `#[derive(Default)]`
giving all fields 0. -/
structure Status where
  americas : Int
  europe : Int
  asia : Int
deriving DecidableEq, Repr

/-- `Status::default()`: all three fields 0. -/
def defaultStatus : Status := ⟨0, 0, 0⟩

/-- Result of one `update_*` call on the store: the store after the call
(`&mut self` in the source — unchanged when the call errors out early),
the notifications emitted, and the error if any (`Result<()>`). -/
structure UpdateResult where
  status : Status
  sent : List Notification
  err : Option String
deriving DecidableEq, Repr

/-- `Status::update_americas` (src/main.rs lines 64-71): if the new value
differs, notify first (propagating its error with `?`, leaving the field
unchanged), then commit the new value. -/
def Status.update_americas (s : Status) (sink : Sink) (new : Int) : UpdateResult :=
  if new ≠ s.americas then
    match notify sink "Americas" s.americas new with
    | Except.error e => ⟨s, [], some e⟩
    | Except.ok n => ⟨{ s with americas := new }, [n], none⟩
  else ⟨s, [], none⟩

/-- `Status::update_europe` (src/main.rs lines 73-80). -/
def Status.update_europe (s : Status) (sink : Sink) (new : Int) : UpdateResult :=
  if new ≠ s.europe then
    match notify sink "Europe" s.europe new with
    | Except.error e => ⟨s, [], some e⟩
    | Except.ok n => ⟨{ s with europe := new }, [n], none⟩
  else ⟨s, [], none⟩

/-- `Status::update_asia` (src/main.rs lines 82-89). -/
def Status.update_asia (s : Status) (sink : Sink) (new : Int) : UpdateResult :=
  if new ≠ s.asia then
    match notify sink "Asia" s.asia new with
    | Except.error e => ⟨s, [], some e⟩
    | Except.ok n => ⟨{ s with asia := new }, [n], none⟩
  else ⟨s, [], none⟩

/-- A wire record `{progress: String, region: String}` (src/main.rs
lines 31-35). -/
structure Progress where
  progress : String
  region : String
deriving DecidableEq, Repr

/-- `str::parse::<i32>` as used on the progress string: an optional
leading `+` or `-` sign followed by at least one ASCII digit, with the
value required to fit in `i32`; the error strings are those of Rust's
`ParseIntError` as rendered through `anyhow`. -/
def parseI32 (s : String) : Except String Int :=
  match s.data with
  | [] => Except.error "cannot parse integer from empty string"
  | c :: rest =>
    let signed : Bool := c = '+' ∨ c = '-'
    let digits : List Char := if signed then rest else c :: rest
    if digits = [] then Except.error "invalid digit found in string"
    else if digits.all Char.isDigit then
      let mag : Int := Int.ofNat (digits.foldl (fun acc d => acc * 10 + (d.toNat - '0'.toNat)) 0)
      let v : Int := if c = '-' then -mag else mag
      if -2147483648 ≤ v ∧ v ≤ 2147483647 then Except.ok v
      else if c = '-' then Except.error "number too small to fit in target type"
      else Except.error "number too large to fit in target type"
    else Except.error "invalid digit found in string"

/-- The per-record loop body of a tick (src/main.rs lines 181-188):
dispatch on the region code; codes "1"/"2"/"3" parse the progress value
(`?` aborts the remaining records with the error) and call the matching
`update_*` (again `?` on its error); any other code is logged as a
warning and skipped.  Returns the store afterwards, the notifications
emitted, and the first error if any. -/
def processRecords (sink : Sink) : Status → List Progress →
    Status × List Notification × Option String
  | s, [] => (s, [], none)
  | s, p :: rest =>
    if p.region = "1" then
      match parseI32 p.progress with
      | Except.error e => (s, [], some e)
      | Except.ok v =>
        match s.update_americas sink v with
        | ⟨s2, sent, some e⟩ => (s2, sent, some e)
        | ⟨s2, sent, none⟩ =>
          match processRecords sink s2 rest with
          | (s3, sent2, err) => (s3, sent ++ sent2, err)
    else if p.region = "2" then
      match parseI32 p.progress with
      | Except.error e => (s, [], some e)
      | Except.ok v =>
        match s.update_europe sink v with
        | ⟨s2, sent, some e⟩ => (s2, sent, some e)
        | ⟨s2, sent, none⟩ =>
          match processRecords sink s2 rest with
          | (s3, sent2, err) => (s3, sent ++ sent2, err)
    else if p.region = "3" then
      match parseI32 p.progress with
      | Except.error e => (s, [], some e)
      | Except.ok v =>
        match s.update_asia sink v with
        | ⟨s2, sent, some e⟩ => (s2, sent, some e)
        | ⟨s2, sent, none⟩ =>
          match processRecords sink s2 rest with
          | (s3, sent2, err) => (s3, sent ++ sent2, err)
    else
      processRecords sink s rest

/-- The outcome of one timer tick as seen by `run` (src/main.rs
lines 170-188): the outer `Except` is the result of
`client.get(&url).send().await` — its error propagates out of `run`
via `?` — and the inner `Except` is the result of
`.json::<Vec<Progress>>().await`, whose error is logged and answered
with `continue`. -/
abbrev TickInput := Except String (Except String (List Progress))

/-- The `loop { select! { ... } }` of `run` (src/main.rs lines 158-193),
driven by the list of tick inputs observed until a cancellation signal
breaks the loop; the source then returns `Ok(())`, modelled here as
`ok` of the final store so the store's evolution is observable.  A `?`
inside the tick arm (send failure, parse failure, update failure)
returns the error from `run`, ending the loop. -/
def runLoop (sink : Sink) : Status → List TickInput → Except String Status
  | s, [] => Except.ok s
  | s, t :: rest =>
    match t with
    | Except.error e => Except.error e
    | Except.ok (Except.error _) => runLoop sink s rest
    | Except.ok (Except.ok records) =>
      match processRecords sink s records with
      | (s2, _, none) => runLoop sink s2 rest
      | (_, _, some e) => Except.error e

/-- `build_url` (src/main.rs lines 122-129). -/
def build_url (ladder hardcore : Bool) : String :=
  let l : Nat := if ladder then 1 else 2
  let h : Nat := if hardcore then 1 else 2
  "https://diablo2.io/dclone_api.php?ladder=" ++ toString l ++ "&hc=" ++ toString h

/-- A sink that always succeeds (the notification server accepts
everything). -/
def sinkOk : Sink := fun _ => Except.ok ()

/-- A sink that always fails (the notification server is unreachable). -/
def sinkDown : Sink := fun _ => Except.error "sink unreachable"

/-- The notification of the C6 scenario: region Americas, old 0, new 3. -/
def note36 : Notification :=
  ⟨"Americas: DClone is nearing...", "New status: 3", "annihilus", Urgency.Normal⟩

/-- The notification for the Europe region transitioning from 5 to 6. -/
def note56 : Notification :=
  ⟨"Europe: DClone is walking!", "Status changed from 5 to 6", "annihilus", Urgency.Critical⟩

/-! ## Helper lemmas -/

/-- Values outside `[1,6]` hit the catch-all arm of the classification. -/
theorem classify_out_of_range (n : Int) (h : n < 1 ∨ 6 < n) :
    classify n = Except.error ("Unknown progress value: " ++ toString n) := by
  unfold classify
  rw [if_neg (by omega), if_neg (by omega), if_neg (by omega), if_neg (by omega)]

/-- When classification rejects the value, `notify` fails with that error
without consulting the sink. -/
theorem notify_out_of_range (sink : Sink) (region : String) (old n : Int)
    (h : n < 1 ∨ 6 < n) :
    notify sink region old n = Except.error ("Unknown progress value: " ++ toString n) := by
  unfold notify
  rw [classify_out_of_range n h]

/-- An out-of-range new value that differs from the stored one makes
`update_americas` fail with the classification error, leaving the store
unchanged and emitting nothing. -/
theorem update_americas_invalid (sink : Sink) (s : Status) (v : Int)
    (hrange : v < 1 ∨ 6 < v) (hne : v ≠ s.americas) :
    s.update_americas sink v = ⟨s, [], some ("Unknown progress value: " ++ toString v)⟩ := by
  unfold Status.update_americas
  rw [if_pos hne, notify_out_of_range sink "Americas" s.americas v hrange]

/-- `update_europe` analogue of `update_americas_invalid`. -/
theorem update_europe_invalid (sink : Sink) (s : Status) (v : Int)
    (hrange : v < 1 ∨ 6 < v) (hne : v ≠ s.europe) :
    s.update_europe sink v = ⟨s, [], some ("Unknown progress value: " ++ toString v)⟩ := by
  unfold Status.update_europe
  rw [if_pos hne, notify_out_of_range sink "Europe" s.europe v hrange]

/-- `update_asia` analogue of `update_americas_invalid`. -/
theorem update_asia_invalid (sink : Sink) (s : Status) (v : Int)
    (hrange : v < 1 ∨ 6 < v) (hne : v ≠ s.asia) :
    s.update_asia sink v = ⟨s, [], some ("Unknown progress value: " ++ toString v)⟩ := by
  unfold Status.update_asia
  rw [if_pos hne, notify_out_of_range sink "Asia" s.asia v hrange]

/-- Updating with the currently stored value is a successful no-op. -/
theorem update_americas_self (sink : Sink) (s : Status) (v : Int) (h : s.americas = v) :
    s.update_americas sink v = ⟨s, [], none⟩ := by
  simp [Status.update_americas, h]

/-- `update_europe` analogue of `update_americas_self`. -/
theorem update_europe_self (sink : Sink) (s : Status) (v : Int) (h : s.europe = v) :
    s.update_europe sink v = ⟨s, [], none⟩ := by
  simp [Status.update_europe, h]

/-- `update_asia` analogue of `update_americas_self`. -/
theorem update_asia_self (sink : Sink) (s : Status) (v : Int) (h : s.asia = v) :
    s.update_asia sink v = ⟨s, [], none⟩ := by
  simp [Status.update_asia, h]

/-- After a successful `update_americas`, the field holds the new value. -/
theorem update_americas_ok_val (sink : Sink) (s : Status) (v : Int)
    (h : (s.update_americas sink v).err = none) :
    (s.update_americas sink v).status.americas = v := by
  by_cases hv : v = s.americas
  · simp [Status.update_americas, hv]
  · simp only [Status.update_americas, if_pos (show v ≠ s.americas from hv)] at h ⊢
    cases hn : notify sink "Americas" s.americas v
    · rw [hn] at h; simp at h
    · rfl

/-- `update_europe` analogue of `update_americas_ok_val`. -/
theorem update_europe_ok_val (sink : Sink) (s : Status) (v : Int)
    (h : (s.update_europe sink v).err = none) :
    (s.update_europe sink v).status.europe = v := by
  by_cases hv : v = s.europe
  · simp [Status.update_europe, hv]
  · simp only [Status.update_europe, if_pos (show v ≠ s.europe from hv)] at h ⊢
    cases hn : notify sink "Europe" s.europe v
    · rw [hn] at h; simp at h
    · rfl

/-- `update_asia` analogue of `update_americas_ok_val`. -/
theorem update_asia_ok_val (sink : Sink) (s : Status) (v : Int)
    (h : (s.update_asia sink v).err = none) :
    (s.update_asia sink v).status.asia = v := by
  by_cases hv : v = s.asia
  · simp [Status.update_asia, hv]
  · simp only [Status.update_asia, if_pos (show v ≠ s.asia from hv)] at h ⊢
    cases hn : notify sink "Asia" s.asia v
    · rw [hn] at h; simp at h
    · rfl

/-! ## Claim theorems -/

/-- Claim C3 (confirmed): for every region and every new value different
from that region's stored value, `update_*` consults `notify` exactly at
(region name, old stored value, new value); whenever that call errors,
`update_*` returns the error and the stored value is unchanged (the commit
happens only after a successful notification). -/
theorem claim3_thm (sink : Sink) (s : Status) (v : Int) :
    (v ≠ s.americas →
      (∀ e, notify sink "Americas" s.americas v = Except.error e →
        s.update_americas sink v = ⟨s, [], some e⟩) ∧
      (∀ n, notify sink "Americas" s.americas v = Except.ok n →
        s.update_americas sink v = ⟨{ s with americas := v }, [n], none⟩)) ∧
    (v ≠ s.europe →
      (∀ e, notify sink "Europe" s.europe v = Except.error e →
        s.update_europe sink v = ⟨s, [], some e⟩) ∧
      (∀ n, notify sink "Europe" s.europe v = Except.ok n →
        s.update_europe sink v = ⟨{ s with europe := v }, [n], none⟩)) ∧
    (v ≠ s.asia →
      (∀ e, notify sink "Asia" s.asia v = Except.error e →
        s.update_asia sink v = ⟨s, [], some e⟩) ∧
      (∀ n, notify sink "Asia" s.asia v = Except.ok n →
        s.update_asia sink v = ⟨{ s with asia := v }, [n], none⟩)) := by
  refine ⟨fun hv => ⟨fun e he => ?_, fun n hn => ?_⟩,
          fun hv => ⟨fun e he => ?_, fun n hn => ?_⟩,
          fun hv => ⟨fun e he => ?_, fun n hn => ?_⟩⟩
  · unfold Status.update_americas; rw [if_pos hv, he]
  · unfold Status.update_americas; rw [if_pos hv, hn]
  · unfold Status.update_europe; rw [if_pos hv, he]
  · unfold Status.update_europe; rw [if_pos hv, hn]
  · unfold Status.update_asia; rw [if_pos hv, he]
  · unfold Status.update_asia; rw [if_pos hv, hn]

/-- Witness for C3: with an unreachable sink, updating Americas from 0 to 3
fails with the sink's error and leaves the default store unchanged. -/
theorem claim3_witness :
    defaultStatus.update_americas sinkDown 3 =
      ⟨defaultStatus, [], some "sink unreachable"⟩ :=
  ((claim3_thm sinkDown defaultStatus 3).1 (by decide)).1 "sink unreachable" rfl

/-- Claim C4 (confirmed): the severity classification inside `notify` maps
1 to "DClone is far away"/Low; 2, 3, 4 to "DClone is nearing..."/Normal;
5 to "DClone is about to walk!"/Critical; 6 to "DClone is walking!"/Critical;
and every integer outside [1,6] yields a classification error, upon which
`notify` errors without producing a notification. -/
theorem claim4_thm :
    classify 1 = Except.ok ("DClone is far away", Urgency.Low) ∧
    classify 2 = Except.ok ("DClone is nearing...", Urgency.Normal) ∧
    classify 3 = Except.ok ("DClone is nearing...", Urgency.Normal) ∧
    classify 4 = Except.ok ("DClone is nearing...", Urgency.Normal) ∧
    classify 5 = Except.ok ("DClone is about to walk!", Urgency.Critical) ∧
    classify 6 = Except.ok ("DClone is walking!", Urgency.Critical) ∧
    ∀ n : Int, n < 1 ∨ 6 < n →
      classify n = Except.error ("Unknown progress value: " ++ toString n) ∧
      ∀ (sink : Sink) (region : String) (old : Int),
        notify sink region old n = Except.error ("Unknown progress value: " ++ toString n) := by
  refine ⟨rfl, rfl, rfl, rfl, rfl, rfl, fun n h => ⟨classify_out_of_range n h, ?_⟩⟩
  exact fun sink region old => notify_out_of_range sink region old n h

/-- Witness for C4: the out-of-range clause at 0 and 7. -/
theorem claim4_witness :
    classify 0 = Except.error "Unknown progress value: 0" ∧
    classify 7 = Except.error "Unknown progress value: 7" ∧
    notify sinkOk "Americas" 1 0 = Except.error "Unknown progress value: 0" :=
  ⟨(claim4_thm.2.2.2.2.2.2 0 (Or.inl (by decide))).1,
   (claim4_thm.2.2.2.2.2.2 7 (Or.inr (by decide))).1,
   (claim4_thm.2.2.2.2.2.2 0 (Or.inl (by decide))).2 sinkOk "Americas" 1⟩

/-- Claim C5 (confirmed): updating a region with the value it already
holds succeeds, emits no notification and leaves the store unchanged;
consequently, applying the same value twice in a row notifies at most
once — after a successful first application, the second is a no-op. -/
theorem claim5_thm (sink : Sink) (s : Status) (v : Int) :
    (s.update_americas sink s.americas = ⟨s, [], none⟩ ∧
     s.update_europe sink s.europe = ⟨s, [], none⟩ ∧
     s.update_asia sink s.asia = ⟨s, [], none⟩) ∧
    ((s.update_americas sink v).err = none →
      ((s.update_americas sink v).status).update_americas sink v =
        ⟨(s.update_americas sink v).status, [], none⟩) ∧
    ((s.update_europe sink v).err = none →
      ((s.update_europe sink v).status).update_europe sink v =
        ⟨(s.update_europe sink v).status, [], none⟩) ∧
    ((s.update_asia sink v).err = none →
      ((s.update_asia sink v).status).update_asia sink v =
        ⟨(s.update_asia sink v).status, [], none⟩) := by
  refine ⟨⟨update_americas_self sink s s.americas rfl,
          update_europe_self sink s s.europe rfl,
          update_asia_self sink s s.asia rfl⟩,
        fun h => update_americas_self sink _ v (update_americas_ok_val sink s v h),
        fun h => update_europe_self sink _ v (update_europe_ok_val sink s v h),
        fun h => update_asia_self sink _ v (update_asia_ok_val sink s v h)⟩

/-- Witness for C5: re-applying 3 to Americas right after a successful
update from the default store is a silent no-op. -/
theorem claim5_witness :
    defaultStatus.update_americas sinkOk defaultStatus.americas = ⟨defaultStatus, [], none⟩ ∧
    ((defaultStatus.update_americas sinkOk 3).status).update_americas sinkOk 3 =
      ⟨(defaultStatus.update_americas sinkOk 3).status, [], none⟩ :=
  ⟨(claim5_thm sinkOk defaultStatus 3).1.1, (claim5_thm sinkOk defaultStatus 3).2.1 rfl⟩

/-- Claim C8 (confirmed): `build_url` produces exactly
`https://diablo2.io/dclone_api.php?ladder={l}&hc={h}` with `l`/`h` being
1 for `true` and 2 for `false`; stated by enumerating all four boolean
combinations. -/
theorem claim8_thm :
    build_url true true = "https://diablo2.io/dclone_api.php?ladder=1&hc=1" ∧
    build_url true false = "https://diablo2.io/dclone_api.php?ladder=1&hc=2" ∧
    build_url false true = "https://diablo2.io/dclone_api.php?ladder=2&hc=1" ∧
    build_url false false = "https://diablo2.io/dclone_api.php?ladder=2&hc=2" :=
  ⟨rfl, rfl, rfl, rfl⟩

/-- Claim C9 (confirmed): each `update_*` touches at most its own region's
field — for every sink (hence both on success and on error) and every new
value, the other two fields are returned unchanged. -/
theorem claim9_thm (sink : Sink) (s : Status) (v : Int) :
    ((s.update_americas sink v).status.europe = s.europe ∧
     (s.update_americas sink v).status.asia = s.asia) ∧
    ((s.update_europe sink v).status.americas = s.americas ∧
     (s.update_europe sink v).status.asia = s.asia) ∧
    ((s.update_asia sink v).status.americas = s.americas ∧
     (s.update_asia sink v).status.europe = s.europe) := by
  refine ⟨?_, ?_, ?_⟩
  · by_cases h : v = s.americas
    · simp [Status.update_americas, h]
    · simp only [Status.update_americas, if_pos (show v ≠ s.americas from h)]
      cases notify sink "Americas" s.americas v <;> exact ⟨rfl, rfl⟩
  · by_cases h : v = s.europe
    · simp [Status.update_europe, h]
    · simp only [Status.update_europe, if_pos (show v ≠ s.europe from h)]
      cases notify sink "Europe" s.europe v <;> exact ⟨rfl, rfl⟩
  · by_cases h : v = s.asia
    · simp [Status.update_asia, h]
    · simp only [Status.update_asia, if_pos (show v ≠ s.asia from h)]
      cases notify sink "Asia" s.asia v <;> exact ⟨rfl, rfl⟩

/-- Claim C10 (confirmed): for a region holding a nonzero value, an update
with a differing value outside [1,6] (in particular 0) always fails with
the classification error before any notification, leaving the stored value
unchanged; hence a region that was observed nonzero can never have 0
recorded by an update. -/
theorem claim10_thm (sink : Sink) (s : Status) (v : Int) (hrange : v < 1 ∨ 6 < v) :
    (s.americas ≠ 0 → v ≠ s.americas →
      s.update_americas sink v = ⟨s, [], some ("Unknown progress value: " ++ toString v)⟩) ∧
    (s.europe ≠ 0 → v ≠ s.europe →
      s.update_europe sink v = ⟨s, [], some ("Unknown progress value: " ++ toString v)⟩) ∧
    (s.asia ≠ 0 → v ≠ s.asia →
      s.update_asia sink v = ⟨s, [], some ("Unknown progress value: " ++ toString v)⟩) ∧
    (s.americas ≠ 0 → (s.update_americas sink 0).status.americas ≠ 0) ∧
    (s.europe ≠ 0 → (s.update_europe sink 0).status.europe ≠ 0) ∧
    (s.asia ≠ 0 → (s.update_asia sink 0).status.asia ≠ 0) := by
  refine ⟨fun _ hne => update_americas_invalid sink s v hrange hne,
          fun _ hne => update_europe_invalid sink s v hrange hne,
          fun _ hne => update_asia_invalid sink s v hrange hne, ?_, ?_, ?_⟩
  · intro h0
    rw [update_americas_invalid sink s 0 (Or.inl (by omega)) (fun he => h0 he.symm)]
    exact h0
  · intro h0
    rw [update_europe_invalid sink s 0 (Or.inl (by omega)) (fun he => h0 he.symm)]
    exact h0
  · intro h0
    rw [update_asia_invalid sink s 0 (Or.inl (by omega)) (fun he => h0 he.symm)]
    exact h0

/-- Witness for C10: a store holding {5, 4, 3} rejects a reversion of
Americas to 0 and keeps Asia nonzero when 0 is applied to it. -/
theorem claim10_witness :
    Status.update_americas ⟨5, 4, 3⟩ sinkOk 0 =
      ⟨⟨5, 4, 3⟩, [], some "Unknown progress value: 0"⟩ ∧
    (Status.update_asia ⟨5, 4, 3⟩ sinkOk 0).status.asia ≠ 0 :=
  ⟨(claim10_thm sinkOk ⟨5, 4, 3⟩ 0 (Or.inl (by decide))).1 (by decide) (by decide),
   (claim10_thm sinkOk ⟨5, 4, 3⟩ 0 (Or.inl (by decide))).2.2.2.2.2 (by decide)⟩

/-- Claim C1 counterexample: a tick whose HTTP request itself fails makes
`run` return that error — the loop does not continue — because the `?` on
`send()` propagates out of `run`; this refutes the claim that the run
function never returns an error on a network failure. -/
theorem claim1_counterexample :
    runLoop sinkOk defaultStatus [Except.error "connection failed"] =
      Except.error "connection failed" := rfl

/-- Claim C1 (corrected): a tick whose JSON decoding of the whole response
fails is abandoned with the store unchanged and the loop continues to the
next tick; but a tick whose HTTP request fails makes `run` return that
error, terminating the loop. -/
theorem claim1_amended_thm (sink : Sink) (s : Status) (e : String)
    (rest : List TickInput) :
    runLoop sink s (Except.ok (Except.error e) :: rest) = runLoop sink s rest ∧
    runLoop sink s (Except.error e :: rest) = Except.error e :=
  ⟨rfl, rfl⟩

/-- Claim C2 counterexample: a record with the non-integer progress string
"abc" makes `run` return the parse error even though a further tick was
scheduled — the loop does not continue to the next tick as claimed. -/
theorem claim2_counterexample :
    runLoop sinkOk defaultStatus
        [Except.ok (Except.ok [⟨"abc", "1"⟩]), Except.ok (Except.ok [])] =
      Except.error "invalid digit found in string" := rfl

/-- Claim C2 (corrected): a record whose progress string is not a valid
integer, or whose parsed value is rejected at classification during
notify, aborts the remainder of that tick's record processing and the
error propagates out of `run`: the loop terminates and `run` returns the
error rather than continuing to the next tick. -/
theorem claim2_amended_thm (sink : Sink) (s : Status) (prog code : String)
    (rest : List Progress) (ticks : List TickInput) :
    (∀ e, code = "1" ∨ code = "2" ∨ code = "3" → parseI32 prog = Except.error e →
      processRecords sink s (⟨prog, code⟩ :: rest) = (s, [], some e) ∧
      runLoop sink s (Except.ok (Except.ok (⟨prog, code⟩ :: rest)) :: ticks) =
        Except.error e) ∧
    (∀ v : Int, parseI32 prog = Except.ok v → v ≠ s.americas → v < 1 ∨ 6 < v →
      processRecords sink s (⟨prog, "1"⟩ :: rest) =
        (s, [], some ("Unknown progress value: " ++ toString v)) ∧
      runLoop sink s (Except.ok (Except.ok (⟨prog, "1"⟩ :: rest)) :: ticks) =
        Except.error ("Unknown progress value: " ++ toString v)) := by
  constructor
  · intro e hcode h
    have hp : processRecords sink s (⟨prog, code⟩ :: rest) = (s, [], some e) := by
      rcases hcode with h1 | h2 | h3
      · subst h1
        simp only [processRecords]
        rw [if_pos (by decide), h]
      · subst h2
        simp only [processRecords]
        rw [if_neg (by decide), if_pos (by decide), h]
      · subst h3
        simp only [processRecords]
        rw [if_neg (by decide), if_neg (by decide), if_pos (by decide), h]
    refine ⟨hp, ?_⟩
    simp only [runLoop]
    rw [hp]
  · intro v hv hne hrange
    have hu := update_americas_invalid sink s v hrange hne
    have hp : processRecords sink s (⟨prog, "1"⟩ :: rest) =
        (s, [], some ("Unknown progress value: " ++ toString v)) := by
      simp only [processRecords, hv, hu]
      rw [if_pos trivial]
    refine ⟨hp, ?_⟩
    simp only [runLoop]
    rw [hp]

/-- Witness for the corrected C2: the "abc" record aborts its tick with
the parse error, and a well-formed but out-of-range value 7 is rejected
at classification and ends the run with that error. -/
theorem claim2_amended_witness :
    processRecords sinkOk defaultStatus [⟨"abc", "1"⟩] =
      (defaultStatus, [], some "invalid digit found in string") ∧
    runLoop sinkOk defaultStatus [Except.ok (Except.ok [⟨"7", "1"⟩])] =
      Except.error "Unknown progress value: 7" :=
  ⟨((claim2_amended_thm sinkOk defaultStatus "abc" "1" [] []).1
      "invalid digit found in string" (Or.inl rfl) rfl).1,
   ((claim2_amended_thm sinkOk defaultStatus "7" "1" [] []).2 7 rfl (by decide)
      (Or.inr (by decide))).2⟩

/-- Claim C6 (confirmed): from the default store, a tick with the single
record (region "1", progress "3") yields exactly one notification, titled
"Americas: DClone is nearing..." with body "New status: 3", and the store
becomes {3, 0, 0}; in general a notification produced by `notify` has
title "{region}: {classifier title}" and body "New status: {new}" exactly
when the old value is 0, otherwise "Status changed from {old} to {new}". -/
theorem claim6_thm :
    (∀ sink : Sink, sink note36 = Except.ok () →
      processRecords sink defaultStatus [⟨"3", "1"⟩] = (⟨3, 0, 0⟩, [note36], none)) ∧
    (∀ (sink : Sink) (region : String) (old new : Int) (n : Notification),
      notify sink region old new = Except.ok n →
      (∃ tu, classify new = Except.ok tu ∧ n.title = region ++ ": " ++ tu.1) ∧
      n.body = (if old = 0 then "New status: " ++ toString new
        else "Status changed from " ++ toString old ++ " to " ++ toString new)) := by
  constructor
  · intro sink h
    have hn : notify sink "Americas" 0 3 = Except.ok note36 := by
      have step : notify sink "Americas" 0 3 =
          match sink note36 with
          | Except.error e => Except.error e
          | Except.ok _ => Except.ok note36 := rfl
      rw [step, h]
    have hu : Status.update_americas defaultStatus sink 3 = ⟨⟨3, 0, 0⟩, [note36], none⟩ := by
      have step : Status.update_americas defaultStatus sink 3 =
          match notify sink "Americas" 0 3 with
          | Except.error e => ⟨defaultStatus, [], some e⟩
          | Except.ok n => ⟨{ defaultStatus with americas := 3 }, [n], none⟩ := rfl
      rw [step, hn]
      rfl
    have hpar : parseI32 "3" = Except.ok 3 := rfl
    simp only [processRecords, hpar, hu]
    rw [if_pos trivial]
    simp
  · intro sink region old new n h
    unfold notify at h
    split at h
    · exact absurd h (by simp)
    · rename_i tu heq
      split at h
      · exact absurd h (by simp)
      · cases h
        exact ⟨⟨tu, heq, rfl⟩, rfl⟩

/-- Witness for C6: the scenario with an accepting sink, and the general
title/body shape at the 5 → 6 transition of Europe. -/
theorem claim6_witness :
    processRecords sinkOk defaultStatus [⟨"3", "1"⟩] = (⟨3, 0, 0⟩, [note36], none) ∧
    (∃ tu, classify 6 = Except.ok tu ∧ note56.title = "Europe" ++ ": " ++ tu.1) ∧
    note56.body = (if (5 : Int) = 0 then "New status: " ++ toString (6 : Int)
      else "Status changed from " ++ toString (5 : Int) ++ " to " ++ toString (6 : Int)) :=
  ⟨claim6_thm.1 sinkOk rfl, claim6_thm.2 sinkOk "Europe" 5 6 note56 rfl⟩

/-- Claim C7 (confirmed): within a tick, a record whose region code is not
"1", "2" or "3" is skipped — the store and the emitted notifications are
exactly those of processing the remaining records — while codes "1", "2"
and "3" dispatch to the Americas, Europe and Asia updates respectively. -/
theorem claim7_thm (sink : Sink) (s : Status) :
    (∀ (p : Progress) (rest : List Progress),
      p.region ≠ "1" → p.region ≠ "2" → p.region ≠ "3" →
      processRecords sink s (p :: rest) = processRecords sink s rest) ∧
    (∀ (prog : String) (v : Int), parseI32 prog = Except.ok v →
      processRecords sink s [⟨prog, "1"⟩] =
        ((s.update_americas sink v).status, (s.update_americas sink v).sent,
          (s.update_americas sink v).err) ∧
      processRecords sink s [⟨prog, "2"⟩] =
        ((s.update_europe sink v).status, (s.update_europe sink v).sent,
          (s.update_europe sink v).err) ∧
      processRecords sink s [⟨prog, "3"⟩] =
        ((s.update_asia sink v).status, (s.update_asia sink v).sent,
          (s.update_asia sink v).err)) := by
  constructor
  · intro p rest h1 h2 h3
    simp only [processRecords]
    rw [if_neg h1, if_neg h2, if_neg h3]
  · intro prog v h
    refine ⟨?_, ?_, ?_⟩
    · simp only [processRecords, h]
      cases hr : s.update_americas sink v with
      | mk s2 sent err => cases err <;> simp
    · simp only [processRecords, h]
      cases hr : s.update_europe sink v with
      | mk s2 sent err => cases err <;> simp
    · simp only [processRecords, h]
      cases hr : s.update_asia sink v with
      | mk s2 sent err => cases err <;> simp

/-- Witness for C7: an unrecognized region code "9" is skipped, and a
record with code "2" drives the Europe update. -/
theorem claim7_witness :
    processRecords sinkOk defaultStatus [⟨"3", "9"⟩] =
      processRecords sinkOk defaultStatus [] ∧
    processRecords sinkOk defaultStatus [⟨"3", "2"⟩] =
      ((defaultStatus.update_europe sinkOk 3).status,
        (defaultStatus.update_europe sinkOk 3).sent,
        (defaultStatus.update_europe sinkOk 3).err) :=
  ⟨(claim7_thm sinkOk defaultStatus).1 ⟨"3", "9"⟩ [] (by decide) (by decide) (by decide),
   ((claim7_thm sinkOk defaultStatus).2 "3" 3 rfl).2.1⟩

end DCloneTracker
